import Mathlib

/-!
# Tracy editor client: drag-and-drop orchestration

A shallow embedding of the React components of `src/editor/src/components`
(`viewport.jsx`, `assets_browser.jsx`, `middle.jsx`) and of the GraphQL documents
they dispatch, followed by theorems about them.

Components are functions from the values their hooks hand them to an element tree.
Effects of the handlers are explicit state passing on `ViewPortState`, whose `sent`
field is the log of operations handed to the transport, oldest first.
Layout and styling props (`width`, `bgcolor`, `sx`, ...) are not recorded in the
element trees; props that carry behaviour (`open`, `onClose`, `ref`) are.
-/

namespace Tracy

/-! ## JavaScript values -/

/-- JavaScript values as far as the components observe them; `object` stands for any
object or function reference. -/
inductive JsVal where
  | undefined
  | null
  | bool (b : Bool)
  | num (n : Int)
  | str (s : String)
  | object
  deriving DecidableEq, Repr

/-- JavaScript truthiness, the test performed by `if (v)`. -/
def JsVal.truthy : JsVal → Bool
  | .undefined => false
  | .null => false
  | .bool b => b
  | .num n => n != 0
  | .str s => s != ""
  | .object => true

/-- Errors thrown while a component function runs. -/
inductive JsError where
  | typeError (msg : String)
  deriving DecidableEq, Repr

/-! ## GraphQL documents (`src/editor/src/gql`) -/

/-- A parsed `gql` document: operation kind, operation name, declared variables (`vars`)
and the selected root fields. -/
structure Document where
  operation : String
  name : String
  vars : List (String × String)
  selection : List String
  deriving DecidableEq, Repr

/-- The document of `gql/mutations/import_mutations.jsx`. -/
def CREATE_BASIC_SHAPE : Document :=
  { operation := "mutation", name := "CreateShape",
    vars := [("shape", "String!")], selection := ["createBasicShape"] }

/-- The document of `gql/mutations/render.jsx`. -/
def RENDER : Document :=
  { operation := "mutation", name := "Render",
    vars := [("batches", "Int!")], selection := ["build", "render"] }

/-- The document of `gql/queries/project_queries.jsx`, which `Middle` passes to `useQuery`. -/
def PROJECT_QUERY : Document :=
  { operation := "query", name := "",
    vars := [], selection := ["project"] }

/-- The options object passed to a mutate function, `{ variables: {...} }`; the field
`vars` holds its `variables` object. -/
structure MutateOptions where
  vars : List (String × JsVal)
  deriving DecidableEq, Repr

/-- One operation handed to the transport: the document and the values of its variables
(`vars`). -/
structure Dispatch where
  document : Document
  vars : List (String × JsVal)
  deriving DecidableEq, Repr

/-! ## Request lifecycle -/

/-- The message-carrying error of a failed remote operation (`error.message`). -/
structure ErrorInfo where
  message : String
  deriving DecidableEq, Repr

/-- Lifecycle states of one remote operation. -/
inductive LifecycleState where
  | idle
  | pending
  | succeeded
  | failed
  deriving DecidableEq, Repr

/-- Modelled from the spec: the request lifecycle `{state, result, error}` kept by the
query and mutation hooks of the transport library (`useQuery`, `useMutation`), whose
implementation is not under `src/`. -/
structure RequestLifecycle (T : Type) where
  state : LifecycleState
  result : Option T
  error : Option ErrorInfo
  deriving DecidableEq, Repr

/-- How the asynchronous call behind an operation ends. -/
inductive Outcome (T : Type) where
  | resolved (result : T)
  | rejected (error : ErrorInfo)
  deriving DecidableEq, Repr

/-- What can happen to a lifecycle: it is invoked, or its call settles. -/
inductive LifecycleEvent (T : Type) where
  | invoke
  | settle (o : Outcome T)
  deriving DecidableEq, Repr

/-- Modelled from the spec: the initial lifecycle, `idle` with neither result nor error. -/
def RequestLifecycle.initial {T : Type} : RequestLifecycle T :=
  { state := .idle, result := none, error := none }

/-- Modelled from the spec: the lifecycle transitions of section 4.4. An invocation starts a
fresh lifecycle and takes it to `pending`; a `pending` lifecycle settles to `succeeded`
with the result or to `failed` with the error; a settlement that finds no pending call
changes nothing. -/
def RequestLifecycle.step {T : Type} (l : RequestLifecycle T) :
    LifecycleEvent T → RequestLifecycle T
  | .invoke => { state := .pending, result := none, error := none }
  | .settle o =>
    match l.state, o with
    | .pending, .resolved r => { state := .succeeded, result := some r, error := none }
    | .pending, .rejected e => { state := .failed, result := none, error := some e }
    | _, _ => l

/-- Run a lifecycle through a sequence of events, oldest first. -/
def RequestLifecycle.run {T : Type} (l : RequestLifecycle T) :
    List (LifecycleEvent T) → RequestLifecycle T
  | [] => l
  | e :: es => (l.step e).run es

/-- The lifecycle invariant of the data model: result and error are never both present,
a result is present exactly in `succeeded`, an error exactly in `failed`. -/
def RequestLifecycle.WellFormed {T : Type} (l : RequestLifecycle T) : Prop :=
  ¬ (l.result.isSome ∧ l.error.isSome) ∧
  (l.result.isSome ↔ l.state = .succeeded) ∧
  (l.error.isSome ↔ l.state = .failed) ∧
  ((l.state = .idle ∨ l.state = .pending) → l.result.isSome = false ∧ l.error.isSome = false)

instance {T : Type} (l : RequestLifecycle T) : Decidable l.WellFormed := by
  unfold RequestLifecycle.WellFormed
  infer_instance

/-- The second component of what `useMutation` returns, as its properties are read. -/
structure MutationResult where
  data : JsVal
  loading : Bool
  error : Option ErrorInfo
  called : Bool
  deriving DecidableEq, Repr

/-- Property lookup `result[key]` on the object returned by `useMutation`: the object has
the properties `data`, `loading`, `error`, `called`, `client` and `reset`; any other key
reads as `undefined`. -/
def MutationResult.prop (r : MutationResult) (key : String) : JsVal :=
  if key = "data" then r.data
  else if key = "loading" then .bool r.loading
  else if key = "error" then (match r.error with | some _ => .object | none => .undefined)
  else if key = "called" then .bool r.called
  else if key = "client" then .object
  else if key = "reset" then .object
  else .undefined

/-- Modelled from the spec: the view a mutation hook gives of its lifecycle: `loading`
while `pending`, `data` once `succeeded`, `error` once `failed`. -/
def RequestLifecycle.toMutationResult {T : Type} (l : RequestLifecycle T) : MutationResult :=
  { data := (match l.result with | some _ => .object | none => .undefined),
    loading := decide (l.state = .pending),
    error := l.error,
    called := decide (l.state ≠ .idle) }

/-! ## Drag and drop -/

/-- The drag payload `{ id, name }` of `DraggableAssetComponent`. -/
structure Item where
  id : Int
  name : String
  deriving DecidableEq, Repr

/-- The specification object given to `useDrag`: `{ type, item }`. -/
structure DragSourceSpec where
  type : String
  item : Item
  deriving DecidableEq, Repr

/-- The specification object given to `useDrop`: `{ accept, drop }`, the handler acting on
a state `σ`. -/
structure DropTargetSpec (σ : Type) where
  accept : String
  drop : Item → σ → σ

/-- Modelled from the spec: the acceptance filter of the drag framework (`react-dnd`, not
under `src/`): a target accepts a drag exactly when the drag type is the declared one. -/
def DropTargetSpec.canDrop {σ : Type} (t : DropTargetSpec σ) (dragType : String) : Bool :=
  decide (dragType = t.accept)

/-- Modelled from the spec: a drop on a target (`react-dnd`, not under `src/`): the handler
is invoked with the payload when the target accepts the drag type, and the drop is
filtered out before the handler otherwise. -/
def DropTargetSpec.handleDrop {σ : Type} (t : DropTargetSpec σ) (src : DragSourceSpec)
    (s : σ) : σ :=
  if t.canDrop src.type then t.drop src.item s else s

/-! ## `viewport.jsx` -/

/-- An opaque object reference, the result of "create object". -/
structure ObjectRef where
  ref : Nat
  deriving DecidableEq, Repr

/-- The completion marker of "render". -/
structure RenderResult where
  marker : Nat
  deriving DecidableEq, Repr

/-- What the handlers of `ViewPort` act on: the log of dispatched operations, the
lifecycles behind the two `useMutation` hooks, and the drag in flight. -/
structure ViewPortState where
  sent : List Dispatch
  create : RequestLifecycle ObjectRef
  render : RequestLifecycle RenderResult
  dragging : Option DragSourceSpec
  deriving DecidableEq, Repr

/-- The state at mount: nothing sent, both mutations idle, no drag in flight. -/
def ViewPortState.initial : ViewPortState :=
  { sent := [], create := .initial, render := .initial, dragging := none }

/-- The mutate function of `useMutation(CREATE_BASIC_SHAPE)`: hands the operation to the
transport and invokes the hook's lifecycle. It returns at once; the promise it returns is
dropped by `doIt`, and the outcome arrives later as a settlement event. -/
def createBasicShape (options : MutateOptions) (s : ViewPortState) : ViewPortState :=
  { s with sent := s.sent ++ [{ document := CREATE_BASIC_SHAPE, vars := options.vars }],
           create := s.create.step .invoke }

/-- The mutate function of `useMutation(RENDER)`, of the same shape. -/
def render (options : MutateOptions) (s : ViewPortState) : ViewPortState :=
  { s with sent := s.sent ++ [{ document := RENDER, vars := options.vars }],
           render := s.render.step .invoke }

/-- The handler `doIt` of `viewport.jsx`, lines 12 to 15. -/
def doIt (item : Item) (s : ViewPortState) : ViewPortState :=
  let s := createBasicShape { vars := [("shape", .str item.name)] } s
  render { vars := [("batches", .num 8)] } s

/-- The `useDrop` specification of `ViewPort`, lines 16 to 24. -/
def ViewPort.dropSpec : DropTargetSpec ViewPortState :=
  { accept := "mesh", drop := fun item => doIt item }

/-- A drag starts on a source: the framework records type and payload; no handler of the
source specification runs (it declares none). -/
def dragStart (src : DragSourceSpec) (s : ViewPortState) : ViewPortState :=
  { s with dragging := some src }

/-- The drag in flight is dropped on the viewport, which ends the drag. -/
def dropOnViewport (s : ViewPortState) : ViewPortState :=
  match s.dragging with
  | none => s
  | some src => { ViewPort.dropSpec.handleDrop src s with dragging := none }

/-- One drag-and-drop gesture: a drag of `src` that ends with a drop on the viewport. -/
def gesture (src : DragSourceSpec) (s : ViewPortState) : ViewPortState :=
  dropOnViewport (dragStart src s)

/-- The "create object" dispatch for a shape name. -/
def createDispatch (name : String) : Dispatch :=
  { document := CREATE_BASIC_SHAPE, vars := [("shape", .str name)] }

/-- The "render" dispatch for a batch count. -/
def renderDispatch (batches : Int) : Dispatch :=
  { document := RENDER, vars := [("batches", .num batches)] }

/-! ## Element trees -/

/-- Values of the props recorded in an element tree. -/
inductive PropVal where
  | str (s : String)
  | bool (b : Bool)
  | handler (name : String)
  | ref (name : String)
  deriving DecidableEq, Repr

/-- React elements as the components build them: text, host and library elements with
their recorded props and children, and elements of the components of this repository,
which carry the props they are created with. -/
inductive Element where
  | text (s : String)
  | host (tag : String) (props : List (String × PropVal)) (children : List Element)
  | DraggableAssetComponent (key : Nat) (id : Int) (name : String) (type : String)
  | AssetAccordion (name : String) (items : List String) (type : String)
  | AssetBrowser
  | ViewPort
  deriving Repr

mutual
/-- Whether an element satisfying `p` occurs in the tree. -/
def Element.any (p : Element → Bool) : Element → Bool
  | .host tag props children => p (.host tag props children) || Element.anyList p children
  | e => p e
/-- Whether an element satisfying `p` occurs in one of the trees. -/
def Element.anyList (p : Element → Bool) : List Element → Bool
  | [] => false
  | e :: es => Element.any p e || Element.anyList p es
end

mutual
/-- The text leaves of the tree, in document order. -/
def Element.texts : Element → List String
  | .text s => [s]
  | .host _ _ children => Element.textsList children
  | _ => []
/-- The text leaves of the trees, in document order. -/
def Element.textsList : List Element → List String
  | [] => []
  | e :: es => Element.texts e ++ Element.textsList es
end

/-- Is the element the `<AssetBrowser />` component element. -/
def Element.isAssetBrowser : Element → Bool
  | .AssetBrowser => true
  | _ => false

/-- Is the element the `<ViewPort />` component element. -/
def Element.isViewPort : Element → Bool
  | .ViewPort => true
  | _ => false

/-! ## `viewport.jsx`: the component and its events -/

/-- The component `ViewPort` of `viewport.jsx`, lines 26 to 42, as a function of the two objects that
`useMutation(CREATE_BASIC_SHAPE)` and `useMutation(RENDER)` return. Line 11 destructures
the second object by the property names `renderData`, `renderLoading` and `renderError`. -/
def ViewPort (_createResult renderResult : MutationResult) : Element :=
  let renderData := renderResult.prop "renderData"
  let renderLoading := renderResult.prop "renderLoading"
  if renderData.truthy then
    .host "Box" [("ref", .ref "dropRef")] [.text "Render finished"]
  else if renderLoading.truthy then
    .host "Box" [("ref", .ref "dropRef")] [.text "Loading..."]
  else
    .host "Box" [("ref", .ref "dropRef")] [.text "Viewport"]

/-- What `ViewPort` shows in a state: the component applied to the views of the two
mutation lifecycles. -/
def ViewPortState.view (s : ViewPortState) : Element :=
  ViewPort s.create.toMutationResult s.render.toMutationResult

/-- What happens to a mounted `ViewPort`: a drag-and-drop gesture ends on it, or one of
its two mutations settles. -/
inductive ViewPortEvent where
  | gesture (src : DragSourceSpec)
  | createSettled (o : Outcome ObjectRef)
  | renderSettled (o : Outcome RenderResult)
  deriving DecidableEq, Repr

/-- One event on a mounted `ViewPort`. A settlement only moves the lifecycle of its own
mutation; nothing is sent again. -/
def ViewPortState.step (s : ViewPortState) : ViewPortEvent → ViewPortState
  | .gesture src => gesture src s
  | .createSettled o => { s with create := s.create.step (.settle o) }
  | .renderSettled o => { s with render := s.render.step (.settle o) }

/-- Run a sequence of events, oldest first. -/
def ViewPortState.run (s : ViewPortState) : List ViewPortEvent → ViewPortState
  | [] => s
  | e :: es => (s.step e).run es

/-- The dispatches a sequence of events is expected to add to the log: a create and a
render for each gesture of type `mesh`, nothing for any other event. -/
def expectedDispatches : List ViewPortEvent → List Dispatch
  | [] => []
  | .gesture src :: es =>
    (if src.type = "mesh" then [createDispatch src.item.name, renderDispatch 8] else [])
      ++ expectedDispatches es
  | _ :: es => expectedDispatches es

/-- The payloads of the gestures the viewport accepts, in gesture order. -/
def acceptedItems : List ViewPortEvent → List Item
  | [] => []
  | .gesture src :: es =>
    (if src.type = "mesh" then [src.item] else []) ++ acceptedItems es
  | _ :: es => acceptedItems es

/-- The render dispatches of a log. -/
def renderDispatches (log : List Dispatch) : List Dispatch :=
  log.filter (fun d => decide (d.document = RENDER))

/-! ## `assets_browser.jsx` -/

/-- Props of `DraggableAssetComponent`. -/
structure DraggableAssetProps where
  id : Int
  name : String
  type : String
  deriving DecidableEq, Repr

/-- The `useDrag` specification of `DraggableAssetComponent`, lines 14 to 20: it declares
`type`, `item` and `collect` only. -/
def DraggableAssetComponent.dragSpec (props : DraggableAssetProps) : DragSourceSpec :=
  { type := props.type, item := { id := props.id, name := props.name } }

/-- What `DraggableAssetComponent` returns, lines 22 to 27. -/
def DraggableAssetComponent (props : DraggableAssetProps) : Element :=
  .host "ListItemButton" [("ref", .ref "dragRef")]
    [.host "ListItemText" [] [.host "Typography" [] [.text props.name]]]

/-- Props of `AssetAccordion`. -/
structure AssetAccordionProps where
  name : String
  items : List String
  type : String
  deriving DecidableEq, Repr

/-- The loop of `AssetAccordion`, lines 39 to 41, from index `i` with the elements pushed
so far. -/
def AssetAccordion.loop (props : AssetAccordionProps) (i : Nat) (items : List Element) :
    List Element :=
  if h : i < props.items.length then
    AssetAccordion.loop props (i + 1)
      (items ++ [.DraggableAssetComponent i (Int.ofNat i) props.items[i] props.type])
  else items
termination_by props.items.length - i

/-- The component `AssetAccordion` of `assets_browser.jsx`, lines 30 to 60. -/
def AssetAccordion (props : AssetAccordionProps) : Element :=
  let items := AssetAccordion.loop props 0 []
  .host "Stack" []
    [.host "Accordion" []
      [.host "AccordionSummary" [("id", .str "panel1a-header")]
        [.host "Typography" [] [.text props.name]],
       .host "List" [] items]]

/-- The component `AssetBrowser` of `assets_browser.jsx`, lines 62 to 73. -/
def AssetBrowser : Element :=
  .host "Box" []
    [.host "Stack" []
      [.host "Typography" [] [.text "Assets"],
       .AssetAccordion "Shapes" ["Triangle", "Plane", "Cube", "Sphere"] "mesh",
       .AssetAccordion "Lights"
         ["Sun Light", "Point Light", "Spherical Light", "Environment Light"] "light",
       .AssetAccordion "Materials" ["Diffuse", "Glass", "Cloth", "PBR"] "material"]]

mutual
/-- The drag sources registered by the `DraggableAssetComponent` elements of a tree, in
document order. -/
def Element.dragSources : Element → List DragSourceSpec
  | .DraggableAssetComponent _ id name type =>
    [DraggableAssetComponent.dragSpec { id := id, name := name, type := type }]
  | .host _ _ children => Element.dragSourcesList children
  | _ => []
/-- The drag sources of a list of trees, in document order. -/
def Element.dragSourcesList : List Element → List DragSourceSpec
  | [] => []
  | e :: es => Element.dragSources e ++ Element.dragSourcesList es
end

mutual
/-- The props of the `AssetAccordion` elements of a tree, in document order. -/
def Element.accordions : Element → List AssetAccordionProps
  | .AssetAccordion name items type => [{ name := name, items := items, type := type }]
  | .host _ _ children => Element.accordionsList children
  | _ => []
/-- The props of the `AssetAccordion` elements of a list of trees. -/
def Element.accordionsList : List Element → List AssetAccordionProps
  | [] => []
  | e :: es => Element.accordions e ++ Element.accordionsList es
end

/-- The drag source expected at index `i` of an accordion of type `type` for the list
element `name`. -/
def entryAt (type : String) (i : Nat) (name : String) : DragSourceSpec :=
  { type := type, item := { id := Int.ofNat i, name := name } }

/-! ## `middle.jsx` -/

/-- The `project` object of the query result. -/
structure Project where
  name : String
  deriving DecidableEq, Repr

/-- The `data` object of the project query: `{ project }`, where `project` may be null. -/
structure ProjectData where
  project : Option Project
  deriving DecidableEq, Repr

/-- The object `useQuery(PROJECT_QUERY)` returns, as `Middle` destructures it. -/
structure QueryResult where
  loading : Bool
  error : Option ErrorInfo
  data : Option ProjectData
  deriving DecidableEq, Repr

/-- Modelled from the spec: the view the query hook gives of its lifecycle. -/
def RequestLifecycle.toQueryResult (l : RequestLifecycle ProjectData) : QueryResult :=
  { loading := decide (l.state = .pending), error := l.error, data := l.result }

/-- The handler `handleClose` of `middle.jsx`, line 24: `setOpen(false)`, as the next
value of the `open` state. -/
def handleClose (_openState : Bool) : Bool := false

/-- The loading indicator of `Middle`, lines 18 to 20. -/
def Middle.loadingIndicator : Element :=
  .host "div" [] [.text "Loading..."]

/-- The error modal of `Middle`, lines 38 to 51; its `open` prop is the literal `true`. -/
def Middle.errorModal (error : ErrorInfo) : Element :=
  .host "Modal" [("open", .bool true), ("onClose", .handler "handleClose")]
    [.host "Box" []
      [.host "Typography" [("id", .str "modal-modal-title")] [.text error.message]]]

/-- The editor row of `Middle`, lines 54 to 65, given the project read by
`data.project.name`. -/
def Middle.editorRow (project : Project) : Element :=
  .host "Stack" []
    [.host "Box" [] [],
     .host "Box" [] [.AssetBrowser],
     .ViewPort,
     .host "Box" [] [.text project.name]]

/-- The component `Middle` of `middle.jsx`, as a function of the query result and of the `open` state
of line 16. Reading `data.project.name` throws a `TypeError` when `data` or
`data.project` is absent. -/
def Middle (q : QueryResult) (_openState : Bool) : Except JsError Element :=
  if q.loading then
    .ok Middle.loadingIndicator
  else
    match q.error with
    | some error => .ok (Middle.errorModal error)
    | none =>
      match q.data with
      | none => .error (.typeError "Cannot read properties of undefined (reading 'project')")
      | some data =>
        match data.project with
        | none => .error (.typeError "Cannot read properties of null (reading 'name')")
        | some project => .ok (Middle.editorRow project)

/-- The value of a prop of a host element, if the element has it. -/
def Element.prop? (key : String) : Element → Option PropVal
  | .host _ props _ => (props.find? (fun kv => kv.1 == key)).map (fun kv => kv.2)
  | _ => none

/-- Is the element a `Modal` host element. -/
def Element.isModal : Element → Bool
  | .host tag _ _ => tag == "Modal"
  | _ => false

/-! ## Theorems -/

/-! ### Helper lemmas on the drop handler and on runs of events -/

theorem doIt_sent (item : Item) (s : ViewPortState) :
    (doIt item s).sent = s.sent ++ [createDispatch item.name, renderDispatch 8] := by
  simp [doIt, createBasicShape, render, createDispatch, renderDispatch]

theorem gesture_sent (src : DragSourceSpec) (s : ViewPortState) :
    (gesture src s).sent =
      s.sent ++ (if src.type = "mesh" then [createDispatch src.item.name, renderDispatch 8]
        else []) := by
  by_cases h : src.type = "mesh"
  · simp [gesture, dropOnViewport, dragStart, DropTargetSpec.handleDrop,
      DropTargetSpec.canDrop, ViewPort.dropSpec, h, doIt_sent]
  · simp [gesture, dropOnViewport, dragStart, DropTargetSpec.handleDrop,
      DropTargetSpec.canDrop, ViewPort.dropSpec, h]

theorem gesture_rejected (src : DragSourceSpec) (s : ViewPortState) (h : src.type ≠ "mesh") :
    gesture src s = { s with dragging := none } := by
  simp [gesture, dropOnViewport, dragStart, DropTargetSpec.handleDrop,
    DropTargetSpec.canDrop, ViewPort.dropSpec, h]

theorem step_sent (s : ViewPortState) (e : ViewPortEvent) :
    (s.step e).sent = s.sent ++ expectedDispatches [e] := by
  cases e with
  | gesture src => simp [ViewPortState.step, gesture_sent, expectedDispatches]
  | createSettled o => simp [ViewPortState.step, expectedDispatches]
  | renderSettled o => simp [ViewPortState.step, expectedDispatches]

theorem expectedDispatches_cons (e : ViewPortEvent) (es : List ViewPortEvent) :
    expectedDispatches (e :: es) = expectedDispatches [e] ++ expectedDispatches es := by
  cases e <;> simp [expectedDispatches]

theorem run_sent (es : List ViewPortEvent) (s : ViewPortState) :
    (s.run es).sent = s.sent ++ expectedDispatches es := by
  induction es generalizing s with
  | nil => simp [ViewPortState.run, expectedDispatches]
  | cons e es ih =>
    rw [ViewPortState.run, ih, step_sent, expectedDispatches_cons e es, List.append_assoc]

theorem expectedDispatches_length (es : List ViewPortEvent) :
    (expectedDispatches es).length = 2 * (acceptedItems es).length := by
  induction es with
  | nil => simp [expectedDispatches, acceptedItems]
  | cons e es ih =>
    cases e with
    | gesture src =>
      by_cases h : src.type = "mesh"
      · simp [expectedDispatches, acceptedItems, h, ih]; omega
      · simp [expectedDispatches, acceptedItems, h, ih]
    | createSettled o => simpa [expectedDispatches, acceptedItems] using ih
    | renderSettled o => simpa [expectedDispatches, acceptedItems] using ih

theorem expectedDispatches_getElem? (es : List ViewPortEvent) (i : Nat) :
    (expectedDispatches es)[2 * i]? =
        (acceptedItems es)[i]?.map (fun item => createDispatch item.name) ∧
    (expectedDispatches es)[2 * i + 1]? =
        (acceptedItems es)[i]?.map (fun _ => renderDispatch 8) := by
  induction es generalizing i with
  | nil => simp [expectedDispatches, acceptedItems]
  | cons e es ih =>
    cases e with
    | gesture src =>
      by_cases h : src.type = "mesh"
      · cases i with
        | zero => simp [expectedDispatches, acceptedItems, h]
        | succ j =>
          have e1 : 2 * (j + 1) = (2 * j + 1) + 1 := by omega
          have h2 := ih j
          simp [expectedDispatches, acceptedItems, h, e1, h2]
      · simpa [expectedDispatches, acceptedItems, h] using ih i
    | createSettled o => simpa [expectedDispatches, acceptedItems] using ih i
    | renderSettled o => simpa [expectedDispatches, acceptedItems] using ih i

/-! ### Helper lemmas on the palette -/

theorem dragSourcesList_append (xs ys : List Element) :
    Element.dragSourcesList (xs ++ ys) =
      Element.dragSourcesList xs ++ Element.dragSourcesList ys := by
  induction xs with
  | nil => simp [Element.dragSourcesList]
  | cons x xs ih => simp [Element.dragSourcesList, ih]

theorem loop_dragSources (props : AssetAccordionProps) (n i : Nat) (acc : List Element)
    (hn : props.items.length - i = n) :
    Element.dragSourcesList (AssetAccordion.loop props i acc) =
      Element.dragSourcesList acc ++
        ((props.items.drop i).enumFrom i).map (fun p => entryAt props.type p.1 p.2) := by
  induction n generalizing i acc with
  | zero =>
    have hi : ¬ i < props.items.length := by omega
    have hd : props.items.drop i = [] := List.drop_eq_nil_of_le (by omega)
    rw [AssetAccordion.loop]
    simp [hi, hd]
  | succ n ih =>
    have hi : i < props.items.length := by omega
    rw [AssetAccordion.loop]
    simp only [hi, dite_true]
    have hd : (props.items.drop i).enumFrom i =
        (i, props.items[i]) :: (props.items.drop (i + 1)).enumFrom (i + 1) := by
      rw [List.drop_eq_getElem_cons hi, List.enumFrom_cons]
    rw [ih (i + 1) _ (by omega), dragSourcesList_append, hd]
    simp [Element.dragSourcesList, Element.dragSources, DraggableAssetComponent.dragSpec,
      entryAt]

theorem AssetAccordion_dragSources (props : AssetAccordionProps) :
    (AssetAccordion props).dragSources =
      props.items.enum.map (fun p => entryAt props.type p.1 p.2) := by
  have h := loop_dragSources props (props.items.length - 0) 0 [] rfl
  simp [AssetAccordion, Element.dragSources, Element.dragSourcesList, h, List.enum]

theorem expectedDispatches_settlements (os : List (Outcome ObjectRef)) :
    expectedDispatches (os.map ViewPortEvent.createSettled) = [] := by
  induction os with
  | nil => simp [expectedDispatches]
  | cons o os ih => simpa [expectedDispatches] using ih

theorem ViewPort_eq (c r : MutationResult) :
    ViewPort c r = .host "Box" [("ref", .ref "dropRef")] [.text "Viewport"] := by
  simp [ViewPort, MutationResult.prop, JsVal.truthy]

/-! ### The drop handler -/

/-- C1: for every dragged item, whatever its id and name, the viewport's drop target accepts
the type `mesh`, and the drop handler `doIt` adds exactly two dispatches to the log, in this
order: the create mutation with `shape` equal to the item's name, then the render mutation
with `batches` equal to 8. The same holds for the whole gesture of dragging a `mesh` source
onto the viewport. -/
theorem C1_drop_dispatches_create_then_render (item : Item) (s : ViewPortState) :
    ViewPort.dropSpec.canDrop "mesh" = true ∧
    (doIt item s).sent =
      s.sent ++ [{ document := CREATE_BASIC_SHAPE, vars := [("shape", .str item.name)] },
                 { document := RENDER, vars := [("batches", .num 8)] }] ∧
    (gesture { type := "mesh", item := item } s).sent = (doIt item s).sent := by
  refine ⟨by decide, ?_, ?_⟩
  · simpa [createDispatch, renderDispatch] using doIt_sent item s
  · simp [gesture_sent, doIt_sent]

/-- C1, at the item `{id: 2, name: "Cube"}` dropped on a freshly mounted viewport: the log is
create with shape `Cube`, then render with 8 batches. -/
theorem C1_cube_witness :
    (doIt { id := 2, name := "Cube" } ViewPortState.initial).sent =
      [{ document := CREATE_BASIC_SHAPE, vars := [("shape", .str "Cube")] },
       { document := RENDER, vars := [("batches", .num 8)] }] := by
  simpa [ViewPortState.initial] using
    (C1_drop_dispatches_create_then_render { id := 2, name := "Cube" } ViewPortState.initial).2.1

/-- C2: for every dragged item whose drag type is not `mesh`, the viewport's drop target does
not accept it and the gesture leaves the dispatch log and both mutation lifecycles as they
were; this covers every drag source of the `Lights` and `Materials` accordions of the
palette. -/
theorem C2_unaccepted_drop_dispatches_nothing (src : DragSourceSpec) (s : ViewPortState)
    (h : src.type ≠ "mesh") :
    ViewPort.dropSpec.canDrop src.type = false ∧
    (gesture src s).sent = s.sent ∧
    (gesture src s).create = s.create ∧
    (gesture src s).render = s.render ∧
    (∀ props ∈ Element.accordions AssetBrowser,
      props.name = "Lights" ∨ props.name = "Materials" →
        ∀ p ∈ (AssetAccordion props).dragSources,
          ViewPort.dropSpec.canDrop p.type = false ∧ (gesture p s).sent = s.sent) := by
  refine ⟨by simp [DropTargetSpec.canDrop, ViewPort.dropSpec, h], ?_, ?_, ?_, ?_⟩
  · rw [gesture_rejected src s h]
  · rw [gesture_rejected src s h]
  · rw [gesture_rejected src s h]
  · intro props hprops hname p hp
    rw [AssetAccordion_dragSources] at hp
    have hty : p.type = props.type := by
      simp only [List.mem_map] at hp
      obtain ⟨q, _, rfl⟩ := hp
      rfl
    have hne : p.type ≠ "mesh" := by
      rw [hty]
      simp [AssetBrowser, Element.accordions, Element.accordionsList] at hprops
      rcases hprops with rfl | rfl | rfl
      · simp at hname
      · decide
      · decide
    refine ⟨by simp [DropTargetSpec.canDrop, ViewPort.dropSpec, hne], ?_⟩
    rw [gesture_rejected p s hne]

/-- C2, at the palette entry `Sun Light` of type `light`, dropped on a freshly mounted
viewport: nothing is sent. -/
theorem C2_light_witness :
    (gesture { type := "light", item := { id := 0, name := "Sun Light" } }
      ViewPortState.initial).sent = [] :=
  (C2_unaccepted_drop_dispatches_nothing
    { type := "light", item := { id := 0, name := "Sun Light" } } ViewPortState.initial
    (by decide)).2.1

/-- C5 (the code departs from it): whatever the state of the render mutation, `ViewPort`
returns the plain `Viewport` label. After a `Cube` is dropped the render lifecycle is
pending and its hook reports `loading`, yet the label is `Viewport`, not `Loading...`;
after render resolves the hook reports data, yet the label is still `Viewport`, not
`Render finished`. -/
theorem C5_viewport_label_ignores_render_state :
    (gesture { type := "mesh", item := { id := 2, name := "Cube" } }
        ViewPortState.initial).render.toMutationResult.loading = true ∧
    (gesture { type := "mesh", item := { id := 2, name := "Cube" } }
        ViewPortState.initial).view.texts = ["Viewport"] ∧
    ((gesture { type := "mesh", item := { id := 2, name := "Cube" } }
        ViewPortState.initial).step
          (.renderSettled (.resolved { marker := 0 }))).render.toMutationResult.data
      = JsVal.object ∧
    ((gesture { type := "mesh", item := { id := 2, name := "Cube" } }
        ViewPortState.initial).step
          (.renderSettled (.resolved { marker := 0 }))).view.texts = ["Viewport"] ∧
    (∀ c r : MutationResult, (ViewPort c r).texts = ["Viewport"]) := by
  refine ⟨by decide, ?_, by decide, ?_, ?_⟩
  · simp [ViewPortState.view, ViewPort_eq, Element.texts, Element.textsList]
  · simp [ViewPortState.view, ViewPort_eq, Element.texts, Element.textsList]
  · intro c r
    simp [ViewPort_eq, Element.texts, Element.textsList]

/-- C6: the render dispatch of the drop handler depends neither on the dropped item nor on
the create operation. For every two items and every two states (the create lifecycle idle,
pending, succeeded or failed), `doIt` sends render right after create in the same call, the
render dispatches it adds are the single dispatch with `batches` equal to 8 in both runs,
and no later settlement of create, success or failure, changes the log. -/
theorem C6_render_independent_of_create (a b : Item) (s t : ViewPortState)
    (os : List (Outcome ObjectRef)) :
    (doIt a s).sent =
      (createBasicShape { vars := [("shape", .str a.name)] } s).sent ++
        [{ document := RENDER, vars := [("batches", .num 8)] }] ∧
    renderDispatches ((doIt a s).sent.drop s.sent.length) =
      [{ document := RENDER, vars := [("batches", .num 8)] }] ∧
    renderDispatches ((doIt a s).sent.drop s.sent.length) =
      renderDispatches ((doIt b t).sent.drop t.sent.length) ∧
    ((doIt a s).run (os.map ViewPortEvent.createSettled)).sent = (doIt a s).sent := by
  have hr : ∀ (x : Item) (u : ViewPortState),
      renderDispatches ((doIt x u).sent.drop u.sent.length) = [renderDispatch 8] := by
    intro x u
    rw [doIt_sent, List.drop_left]
    simp [renderDispatches, createDispatch, renderDispatch, CREATE_BASIC_SHAPE, RENDER]
  refine ⟨by simp [doIt, createBasicShape, render], ?_, ?_, ?_⟩
  · simpa [renderDispatch] using hr a s
  · rw [hr a s, hr b t]
  · rw [run_sent, expectedDispatches_settlements, List.append_nil]

/-- C9: for every finite sequence of events on a mounted viewport, gestures of arbitrary
type and name interleaved with settlements of create and render, the dispatch log is the
concatenation, in gesture order, of create (shape = name) and render (batches = 8) for each
gesture of type `mesh` and of nothing for any other event: its length is twice the number
of accepted gestures, entry `2 i` is the create for the name of accepted item `i`, and
entry `2 i + 1` is the render with 8 batches. -/
theorem C9_drops_not_serialized (es : List ViewPortEvent) :
    (ViewPortState.initial.run es).sent = expectedDispatches es ∧
    (ViewPortState.initial.run es).sent.length = 2 * (acceptedItems es).length ∧
    (∀ i : Nat,
      (ViewPortState.initial.run es).sent[2 * i]? =
        (acceptedItems es)[i]?.map (fun item =>
          { document := CREATE_BASIC_SHAPE, vars := [("shape", .str item.name)] }) ∧
      (ViewPortState.initial.run es).sent[2 * i + 1]? =
        (acceptedItems es)[i]?.map (fun _ =>
          { document := RENDER, vars := [("batches", .num 8)] })) := by
  have h : (ViewPortState.initial.run es).sent = expectedDispatches es := by
    rw [run_sent]; simp [ViewPortState.initial]
  refine ⟨h, ?_, ?_⟩
  · rw [h, expectedDispatches_length]
  · intro i
    rw [h]
    simpa [createDispatch, renderDispatch] using expectedDispatches_getElem? es i

/-! ### The palette -/

/-- C8: for every accordion with item list `L` and type `t`, `AssetAccordion` produces one
drag source per element of `L`, in the order of `L`, and the source at index `i` has drag
type `t` and payload `{id: i, name: L[i]}`; starting a drag records that source as the drag
in flight and changes neither the dispatch log nor a mutation lifecycle. -/
theorem C8_accordion_entries (props : AssetAccordionProps) (s : ViewPortState) :
    (AssetAccordion props).dragSources.length = props.items.length ∧
    (∀ i : Nat, (AssetAccordion props).dragSources[i]? =
      props.items[i]?.map (fun name =>
        { type := props.type, item := { id := Int.ofNat i, name := name } })) ∧
    (∀ src : DragSourceSpec,
      (dragStart src s).dragging = some src ∧ (dragStart src s).sent = s.sent ∧
      (dragStart src s).create = s.create ∧ (dragStart src s).render = s.render) := by
  refine ⟨?_, ?_, ?_⟩
  · simp [AssetAccordion_dragSources]
  · intro i
    rw [AssetAccordion_dragSources]
    by_cases hi : i < props.items.length
    · simp [List.getElem?_eq_getElem, hi, entryAt, List.enum]
    · simp [List.getElem?_eq_none, Nat.le_of_not_lt hi]
  · intro src
    simp [dragStart]

/-- C8, at the `Shapes` accordion: four entries, the third with type `mesh` and payload
`{id: 2, name: "Cube"}`. -/
theorem C8_shapes_witness :
    (AssetAccordion { name := "Shapes",
                      items := ["Triangle", "Plane", "Cube", "Sphere"],
                      type := "mesh" }).dragSources[2]? =
      some { type := "mesh", item := { id := 2, name := "Cube" } } := by
  simpa using
    (C8_accordion_entries { name := "Shapes",
                            items := ["Triangle", "Plane", "Cube", "Sphere"],
                            type := "mesh" } ViewPortState.initial).2.1 2

/-! ### Helper lemmas on `Middle` and on lifecycles -/

theorem Middle_loading (q : QueryResult) (openState : Bool) (h : q.loading = true) :
    Middle q openState = .ok Middle.loadingIndicator := by
  simp [Middle, h]

theorem Middle_error (q : QueryResult) (openState : Bool) (err : ErrorInfo)
    (hl : q.loading = false) (he : q.error = some err) :
    Middle q openState = .ok (Middle.errorModal err) := by
  simp [Middle, hl, he]

theorem loadingIndicator_closed :
    Middle.loadingIndicator.any Element.isAssetBrowser = false ∧
    Middle.loadingIndicator.any Element.isViewPort = false := by
  decide

theorem errorModal_closed (err : ErrorInfo) :
    (Middle.errorModal err).any Element.isAssetBrowser = false ∧
    (Middle.errorModal err).any Element.isViewPort = false := by
  simp [Middle.errorModal, Element.any, Element.anyList, Element.isAssetBrowser,
    Element.isViewPort]

theorem wellFormed_initial {T : Type} :
    (RequestLifecycle.initial : RequestLifecycle T).WellFormed := by
  simp [RequestLifecycle.initial, RequestLifecycle.WellFormed]

theorem wellFormed_step {T : Type} (l : RequestLifecycle T) (e : LifecycleEvent T)
    (h : l.WellFormed) : (l.step e).WellFormed := by
  cases e with
  | invoke => simp [RequestLifecycle.step, RequestLifecycle.WellFormed]
  | settle o =>
    rcases l with ⟨st, r, er⟩
    cases st <;> cases o <;>
      first
        | exact h
        | simp [RequestLifecycle.step, RequestLifecycle.WellFormed]

theorem wellFormed_run {T : Type} (es : List (LifecycleEvent T)) (l : RequestLifecycle T)
    (h : l.WellFormed) : (l.run es).WellFormed := by
  induction es generalizing l with
  | nil => exact h
  | cons e es ih => exact ih _ (wellFormed_step l e h)

theorem gesture_lifecycles (src : DragSourceSpec) (s : ViewPortState) :
    ((gesture src s).create = s.create ∧ (gesture src s).render = s.render) ∨
    ((gesture src s).create = s.create.step .invoke ∧
      (gesture src s).render = s.render.step .invoke) := by
  by_cases h : src.type = "mesh"
  · right
    simp [gesture, dropOnViewport, dragStart, DropTargetSpec.handleDrop,
      DropTargetSpec.canDrop, ViewPort.dropSpec, h, doIt, createBasicShape, render]
  · left
    rw [gesture_rejected src s h]
    exact ⟨rfl, rfl⟩

theorem viewPort_step_wellFormed (s : ViewPortState) (e : ViewPortEvent)
    (h : s.create.WellFormed ∧ s.render.WellFormed) :
    (s.step e).create.WellFormed ∧ (s.step e).render.WellFormed := by
  cases e with
  | gesture src =>
    rcases gesture_lifecycles src s with ⟨hc, hr⟩ | ⟨hc, hr⟩
    · simp only [ViewPortState.step, hc, hr]; exact h
    · simp only [ViewPortState.step, hc, hr]
      exact ⟨wellFormed_step _ _ h.1, wellFormed_step _ _ h.2⟩
  | createSettled o => exact ⟨wellFormed_step _ _ h.1, h.2⟩
  | renderSettled o => exact ⟨h.1, wellFormed_step _ _ h.2⟩

theorem viewPort_run_wellFormed (es : List ViewPortEvent) (s : ViewPortState)
    (h : s.create.WellFormed ∧ s.render.WellFormed) :
    (s.run es).create.WellFormed ∧ (s.run es).render.WellFormed := by
  induction es generalizing s with
  | nil => exact h
  | cons e es ih => exact ih _ (viewPort_step_wellFormed s e h)

/-! ### The project gate -/

/-- C3: for every result of the project query and every value of the `open` state, when
the query is loading or has an error `Middle` returns an element tree that contains
neither `AssetBrowser` nor `ViewPort`; and whenever the tree `Middle` returns contains one
of them, the query is not loading, has no error and has data. -/
theorem C3_editor_only_after_success (q : QueryResult) (openState : Bool) :
    ((q.loading = true ∨ q.error.isSome = true) →
      ∃ e, Middle q openState = .ok e ∧
        e.any Element.isAssetBrowser = false ∧ e.any Element.isViewPort = false) ∧
    (∀ e, Middle q openState = .ok e →
      (e.any Element.isAssetBrowser = true ∨ e.any Element.isViewPort = true) →
        q.loading = false ∧ q.error = none ∧ q.data.isSome = true) := by
  constructor
  · intro h
    by_cases hl : q.loading = true
    · exact ⟨_, Middle_loading q openState hl, loadingIndicator_closed⟩
    · have hl' : q.loading = false := by simpa using hl
      rcases h with h | h
      · exact absurd h hl
      · obtain ⟨err, he⟩ := Option.isSome_iff_exists.mp h
        exact ⟨_, Middle_error q openState err hl' he, errorModal_closed err⟩
  · intro e he hc
    by_cases hl : q.loading = true
    · rw [Middle_loading q openState hl] at he
      cases he
      have := loadingIndicator_closed
      simp [this.1, this.2] at hc
    · have hl' : q.loading = false := by simpa using hl
      cases hq : q.error with
      | some err =>
        rw [Middle_error q openState err hl' hq] at he
        cases he
        have := errorModal_closed err
        simp [this.1, this.2] at hc
      | none =>
        cases hd : q.data with
        | none => simp [Middle, hl', hq, hd] at he
        | some d => exact ⟨hl', rfl, rfl⟩

/-- C3, at a query that is still loading: what `Middle` returns contains neither
`AssetBrowser` nor `ViewPort`. -/
theorem C3_loading_witness :
    ∃ e, Middle { loading := true, error := none, data := none } true = .ok e ∧
      e.any Element.isAssetBrowser = false ∧ e.any Element.isViewPort = false :=
  (C3_editor_only_after_success { loading := true, error := none, data := none } true).1
    (Or.inl rfl)

/-- C4: for every error message `m`, when the query is not loading and has failed with
message `m`, `Middle` returns the error modal, whose only text is `m`, whose `open` prop
is `true` and which contains neither `AssetBrowser` nor `ViewPort`; this holds for every
value of the `open` state, so also after `handleClose` has set it to false. -/
theorem C4_error_surface_shows_message (m : String) (data : Option ProjectData)
    (openState : Bool) :
    Middle { loading := false, error := some { message := m }, data := data } openState =
      .ok (Middle.errorModal { message := m }) ∧
    (Middle.errorModal { message := m }).isModal = true ∧
    (Middle.errorModal { message := m }).texts = [m] ∧
    (Middle.errorModal { message := m }).prop? "open" = some (.bool true) ∧
    (Middle.errorModal { message := m }).any Element.isAssetBrowser = false ∧
    (Middle.errorModal { message := m }).any Element.isViewPort = false ∧
    Middle { loading := false, error := some { message := m }, data := data }
        (handleClose openState) =
      .ok (Middle.errorModal { message := m }) := by
  refine ⟨by simp [Middle], by simp [Middle.errorModal, Element.isModal], ?_, ?_,
    (errorModal_closed _).1, (errorModal_closed _).2, by simp [Middle]⟩
  · simp [Middle.errorModal, Element.texts, Element.textsList]
  · simp [Middle.errorModal, Element.prop?]

/-- C4, at the message `project not found`: the modal is what `Middle` returns and its only
text is that message. -/
theorem C4_project_not_found_witness :
    Middle { loading := false, error := some { message := "project not found" },
             data := none } true =
      .ok (Middle.errorModal { message := "project not found" }) ∧
    (Middle.errorModal { message := "project not found" }).texts = ["project not found"] :=
  ⟨(C4_error_surface_shows_message "project not found" none true).1,
   (C4_error_surface_shows_message "project not found" none true).2.2.1⟩

/-- C10: `Middle` is a three-way case split with loading tested first. It returns the
loading indicator exactly when `loading` is true (whatever `error` is), the error modal of
`err` exactly when `loading` is false and `error` is `err`, and the editor row of project
`p`, whose last box shows `p.name`, exactly when `loading` is false, `error` is absent and
`data.project` is `p`; when `loading` is false and `error` is absent but `data` or
`data.project` is absent, reading `data.project.name` throws. These four cases are
exhaustive. -/
theorem C10_middle_case_split (q : QueryResult) (openState : Bool) :
    (Middle q openState = .ok Middle.loadingIndicator ↔ q.loading = true) ∧
    (∀ err, Middle q openState = .ok (Middle.errorModal err) ↔
      q.loading = false ∧ q.error = some err) ∧
    (∀ p, Middle q openState = .ok (Middle.editorRow p) ↔
      q.loading = false ∧ q.error = none ∧ q.data = some { project := some p }) ∧
    ((∃ e, Middle q openState = .error e) ↔
      q.loading = false ∧ q.error = none ∧
        (q.data = none ∨ q.data = some { project := none })) ∧
    (Middle q openState = .ok Middle.loadingIndicator ∨
      (∃ err, Middle q openState = .ok (Middle.errorModal err)) ∨
      (∃ p, Middle q openState = .ok (Middle.editorRow p)) ∨
      (∃ e, Middle q openState = .error e)) ∧
    (∀ p, (Middle.editorRow p).texts = [p.name]) := by
  rcases q with ⟨loading, error, data⟩
  refine ⟨?_, ?_, ?_, ?_, ?_, ?_⟩
  · cases loading
    · rcases error with _ | err
      · rcases data with _ | ⟨_ | p⟩ <;>
          simp [Middle, Middle.loadingIndicator, Middle.editorRow]
      · simp [Middle, Middle.loadingIndicator, Middle.errorModal]
    · simp [Middle]
  · intro err
    cases loading
    · rcases error with _ | err2
      · rcases data with _ | ⟨_ | p⟩ <;>
          simp [Middle, Middle.errorModal, Middle.editorRow]
      · rcases err with ⟨m⟩
        rcases err2 with ⟨m2⟩
        simp [Middle, Middle.errorModal, eq_comm]
    · simp [Middle, Middle.loadingIndicator, Middle.errorModal]
  · intro p
    cases loading
    · rcases error with _ | err2
      · rcases data with _ | ⟨_ | p2⟩
        · simp [Middle]
        · simp [Middle]
        · rcases p with ⟨n⟩
          rcases p2 with ⟨n2⟩
          simp [Middle, Middle.editorRow, eq_comm]
      · simp [Middle, Middle.errorModal, Middle.editorRow]
    · simp [Middle, Middle.loadingIndicator, Middle.editorRow]
  · cases loading
    · rcases error with _ | err2
      · rcases data with _ | ⟨_ | p2⟩ <;> simp [Middle]
      · simp [Middle]
    · simp [Middle]
  · cases loading
    · rcases error with _ | err2
      · rcases data with _ | ⟨_ | p2⟩
        · right; right; right; exact ⟨_, rfl⟩
        · right; right; right; exact ⟨_, rfl⟩
        · right; right; left; exact ⟨p2, by simp [Middle]⟩
      · right; left; exact ⟨err2, by simp [Middle]⟩
    · left; simp [Middle]
  · intro p
    simp [Middle.editorRow, Element.texts, Element.textsList]

/-! ### The lifecycle invariant -/

/-- C7: in every state a request lifecycle reaches from `idle` by invocations and
settlements (the project query of `Middle`), and in every state the create and render
lifecycles of `ViewPort` reach by gestures and settlements, result and error are never
both present, a result is present exactly in `succeeded`, an error exactly in `failed`,
and both are absent in `idle` and `pending`; so the query result `Middle` destructures
never has `data` and `error` together, and has neither while `loading`. -/
theorem C7_lifecycle_invariant :
    (∀ es : List (LifecycleEvent ProjectData),
      ((RequestLifecycle.initial : RequestLifecycle ProjectData).run es).WellFormed ∧
      ¬ ((RequestLifecycle.initial.run es).toQueryResult.data.isSome = true ∧
          (RequestLifecycle.initial.run es).toQueryResult.error.isSome = true) ∧
      ((RequestLifecycle.initial.run es).toQueryResult.loading = true →
        (RequestLifecycle.initial.run es).toQueryResult.data = none ∧
        (RequestLifecycle.initial.run es).toQueryResult.error = none)) ∧
    (∀ es : List ViewPortEvent,
      (ViewPortState.initial.run es).create.WellFormed ∧
      (ViewPortState.initial.run es).render.WellFormed) := by
  refine ⟨fun es => ?_,
    fun es => viewPort_run_wellFormed es _ ⟨wellFormed_initial, wellFormed_initial⟩⟩
  have h := wellFormed_run es (RequestLifecycle.initial : RequestLifecycle ProjectData)
    wellFormed_initial
  refine ⟨h, h.1, ?_⟩
  intro hl
  have hp := h.2.2.2 (Or.inr (by simpa [RequestLifecycle.toQueryResult] using hl))
  simpa [RequestLifecycle.toQueryResult] using hp

end Tracy
